import Mathlib

/-!
Verification of the classification-and-validation core of the CoC
homelessness visualizer (`enhanced_coc_visualizer_optimized.py`).

Numeric values (pandas/numpy floats) are modelled as rationals, so every
arithmetic step of the source is represented exactly.  Each definition
below embeds one function or expression of the source file; line numbers
in the doc comments refer to that file.
-/

namespace CoC

/-- One row of the `correlation_data` frame built at lines 1147-1171:
the raw counts of one region (CoC) in one year.  Missing columns are
normalized to 0 by the source (`fillna(0)` / all-zero fallback), so every
field is always present here. -/
structure RegionRecord where
  totalBeds : ℚ
  totalHomeless : ℚ
  shelteredHomeless : ℚ
  unshelteredHomeless : ℚ
deriving DecidableEq

/-- Lines 1174-1178: `np.where(Total_Beds > 0, Sheltered_Homeless / Total_Beds * 100, 0)`. -/
def Bed_Utilization_Rate (r : RegionRecord) : ℚ :=
  if 0 < r.totalBeds then r.shelteredHomeless / r.totalBeds * 100 else 0

/-- Line 1181: `Bed_Gap = Total_Homeless - Total_Beds`. -/
def Bed_Gap (r : RegionRecord) : ℚ :=
  r.totalHomeless - r.totalBeds

/-- Lines 1216-1220: `np.where(Total_Homeless > 0, Bed_Gap / Total_Homeless * 100, 0)`. -/
def Bed_Gap_Percentage (r : RegionRecord) : ℚ :=
  if 0 < r.totalHomeless then Bed_Gap r / r.totalHomeless * 100 else 0

/-- Linear interpolation step of `pandas.Series.quantile` (default
`interpolation='linear'`, i.e. numpy's linear percentile rule) on an
already sorted list `s`: at virtual index `h` the result is
`s[floor h] + (h - floor h) * (s[ceil h] - s[floor h])`, with the upper
index clipped to the last position.  For `0 ≤ h ≤ length - 1` this is
exactly the numpy value. -/
def interpSorted (s : List ℚ) (h : ℚ) : ℚ :=
  s.getD (Nat.floor h) 0 +
    (h - (Nat.floor h : ℚ)) *
      (s.getD (min (Nat.floor h + 1) (s.length - 1)) 0 - s.getD (Nat.floor h) 0)

/-- pandas `Series.quantile(q)` with linear interpolation: sort the values and
interpolate at virtual index `q * (n - 1)`.  (pandas returns NaN on an
empty series; the claims below only concern nonempty inputs.) -/
def quantile (xs : List ℚ) (q : ℚ) : ℚ :=
  let s := List.insertionSort (fun a b => a ≤ b) xs
  interpSorted s (q * ((s.length : ℚ) - 1))

/-- Line 1223: `gap_percentiles = correlation_data['Bed_Gap_Percentage'].quantile([0.2, 0.4, 0.6, 0.8]).tolist()`.
Note the quantiles run over the whole column, i.e. over every record of
the year, including records with `Total_Homeless = 0` (whose
`Bed_Gap_Percentage` is 0). -/
def gap_percentiles (records : List RegionRecord) : List ℚ :=
  [quantile (records.map Bed_Gap_Percentage) 0.2,
   quantile (records.map Bed_Gap_Percentage) 0.4,
   quantile (records.map Bed_Gap_Percentage) 0.6,
   quantile (records.map Bed_Gap_Percentage) 0.8]

/-- On a sorted list, `getD` with default 0 is monotone in the index as
long as the indices stay in bounds. -/
theorem getD_mono_of_sorted {s : List ℚ}
    (hs : List.Sorted (fun a b : ℚ => a ≤ b) s)
    {i j : ℕ} (hij : i ≤ j) (hj : j < s.length) : s.getD i 0 ≤ s.getD j 0 := by
  have hi : i < s.length := lt_of_le_of_lt hij hj
  rw [List.getD_eq_getElem?_getD, List.getD_eq_getElem?_getD,
      List.getElem?_eq_getElem hi, List.getElem?_eq_getElem hj]
  simp only [Option.getD_some]
  rcases eq_or_lt_of_le hij with rfl | hlt
  · exact le_refl _
  · have := hs.rel_get_of_lt
      (show (⟨i, hi⟩ : Fin s.length) < ⟨j, hj⟩ from Fin.mk_lt_mk.mpr hlt)
    simpa [List.get_eq_getElem] using this

/-- The linear-interpolation rule is monotone in the virtual index over a
sorted list. -/
theorem interpSorted_mono {s : List ℚ}
    (hs : List.Sorted (fun a b : ℚ => a ≤ b) s) (hlen : 0 < s.length)
    {h1 h2 : ℚ} (h1nn : 0 ≤ h1) (h12 : h1 ≤ h2)
    (h2le : h2 ≤ (s.length : ℚ) - 1) :
    interpSorted s h1 ≤ interpSorted s h2 := by
  have h2nn : 0 ≤ h2 := h1nn.trans h12
  have hcast : ((s.length - 1 : ℕ) : ℚ) = (s.length : ℚ) - 1 := by
    have h1n : 1 ≤ s.length := hlen
    push_cast [h1n]
    ring
  have hi2 : Nat.floor h2 ≤ s.length - 1 := by
    have hle : h2 ≤ ((s.length - 1 : ℕ) : ℚ) := by rw [hcast]; exact h2le
    calc Nat.floor h2 ≤ Nat.floor ((s.length - 1 : ℕ) : ℚ) := Nat.floor_mono hle
      _ = s.length - 1 := Nat.floor_natCast _
  have hi12 : Nat.floor h1 ≤ Nat.floor h2 := Nat.floor_mono h12
  have hi1 : Nat.floor h1 ≤ s.length - 1 := hi12.trans hi2
  have hbound : ∀ k : ℕ, k ≤ s.length - 1 → min (k + 1) (s.length - 1) < s.length := by
    intro k _
    have := min_le_right (k + 1) (s.length - 1)
    omega
  by_cases heq : Nat.floor h1 = Nat.floor h2
  · unfold interpSorted
    rw [heq]
    have hilo : s.getD (Nat.floor h2) 0 ≤ s.getD (min (Nat.floor h2 + 1) (s.length - 1)) 0 :=
      getD_mono_of_sorted hs (le_min (Nat.le_succ _) hi2) (hbound _ hi2)
    have hmul := mul_le_mul_of_nonneg_right
      (sub_le_sub_right h12 (Nat.floor h2 : ℚ)) (sub_nonneg.2 hilo)
    linarith
  · have hlt : Nat.floor h1 < Nat.floor h2 := lt_of_le_of_ne hi12 heq
    have hlo1 : s.getD (Nat.floor h1) 0 ≤ s.getD (min (Nat.floor h1 + 1) (s.length - 1)) 0 :=
      getD_mono_of_sorted hs (le_min (Nat.le_succ _) hi1) (hbound _ hi1)
    have ht1le : h1 - (Nat.floor h1 : ℚ) ≤ 1 := by
      have := Nat.lt_floor_add_one h1
      linarith
    have step1 : interpSorted s h1 ≤ s.getD (min (Nat.floor h1 + 1) (s.length - 1)) 0 := by
      unfold interpSorted
      have hmul := mul_le_of_le_one_left (sub_nonneg.2 hlo1) ht1le
      linarith
    have step2 : s.getD (min (Nat.floor h1 + 1) (s.length - 1)) 0 ≤ s.getD (Nat.floor h2) 0 := by
      refine getD_mono_of_sorted hs (min_le_of_left_le (Nat.succ_le_of_lt hlt)) ?_
      omega
    have step3 : s.getD (Nat.floor h2) 0 ≤ interpSorted s h2 := by
      unfold interpSorted
      have hilo2 : s.getD (Nat.floor h2) 0 ≤ s.getD (min (Nat.floor h2 + 1) (s.length - 1)) 0 :=
        getD_mono_of_sorted hs (le_min (Nat.le_succ _) hi2) (hbound _ hi2)
      have ht2 : 0 ≤ h2 - (Nat.floor h2 : ℚ) := sub_nonneg.2 (Nat.floor_le h2nn)
      have hmul := mul_nonneg ht2 (sub_nonneg.2 hilo2)
      linarith
    linarith

/-- The quantile function is monotone in the quantile level on any
nonempty value list. -/
theorem quantile_mono (xs : List ℚ) (hxs : xs ≠ []) {q1 q2 : ℚ}
    (hq1 : 0 ≤ q1) (hq12 : q1 ≤ q2) (hq2 : q2 ≤ 1) :
    quantile xs q1 ≤ quantile xs q2 := by
  have hperm := List.perm_insertionSort (fun a b : ℚ => a ≤ b) xs
  have hlen : 0 < (List.insertionSort (fun a b : ℚ => a ≤ b) xs).length := by
    rw [hperm.length_eq]
    exact List.length_pos.mpr hxs
  have hs : List.Sorted (fun a b : ℚ => a ≤ b)
      (List.insertionSort (fun a b : ℚ => a ≤ b) xs) :=
    List.sorted_insertionSort _ xs
  have hn1 : (1 : ℚ) ≤ ((List.insertionSort (fun a b : ℚ => a ≤ b) xs).length : ℚ) := by
    exact_mod_cast hlen
  unfold quantile
  apply interpSorted_mono hs hlen
  · exact mul_nonneg hq1 (by linarith)
  · exact mul_le_mul_of_nonneg_right hq12 (by linarith)
  · calc q2 * (((List.insertionSort (fun a b : ℚ => a ≤ b) xs).length : ℚ) - 1)
        ≤ 1 * (((List.insertionSort (fun a b : ℚ => a ≤ b) xs).length : ℚ) - 1) :=
          mul_le_mul_of_nonneg_right hq2 (by linarith)
      _ = ((List.insertionSort (fun a b : ℚ => a ≤ b) xs).length : ℚ) - 1 := one_mul _

/-- Sorting ignores the order of the input, so `quantile` is invariant
under permutation of the value list. -/
theorem quantile_congr_perm {xs ys : List ℚ} (h : xs.Perm ys) (q : ℚ) :
    quantile xs q = quantile ys q := by
  unfold quantile
  rw [List.eq_of_perm_of_sorted
    ((List.perm_insertionSort (fun a b : ℚ => a ≤ b) xs).trans
      (h.trans (List.perm_insertionSort (fun a b : ℚ => a ≤ b) ys).symm))
    (List.sorted_insertionSort _ xs) (List.sorted_insertionSort _ ys)]

/-- The six need levels produced by `classify_need_level` (lines 1225-1237). -/
inductive NeedLevel where
  | NO_DATA
  | EXCELLENT
  | GOOD
  | MODERATE
  | HIGH
  | CRITICAL
deriving DecidableEq

/-- Lines 1225-1237: `classify_need_level(gap_percentage, total_homeless)`,
with `gap_percentiles` passed explicitly (the Python closure captures it). -/
def classify_need_level (gapPercentiles : List ℚ) (gap_percentage total_homeless : ℚ) : NeedLevel :=
  if total_homeless = 0 then NeedLevel.NO_DATA
  else if gap_percentage ≤ gapPercentiles.getD 0 0 then NeedLevel.EXCELLENT
  else if gap_percentage ≤ gapPercentiles.getD 1 0 then NeedLevel.GOOD
  else if gap_percentage ≤ gapPercentiles.getD 2 0 then NeedLevel.MODERATE
  else if gap_percentage ≤ gapPercentiles.getD 3 0 then NeedLevel.HIGH
  else NeedLevel.CRITICAL

/-- C7: metric derivation is total on rationals (no division ever raises:
the zero-denominator branches are explicit), `bed_gap` is the signed
difference, and the two ratios fall back to 0 exactly when their
denominator is 0. -/
theorem c7_metric_deriver_total (r : RegionRecord)
    (hb : 0 ≤ r.totalBeds) (hh : 0 ≤ r.totalHomeless) :
    Bed_Gap r = r.totalHomeless - r.totalBeds ∧
    (r.totalHomeless = 0 → Bed_Gap_Percentage r = 0) ∧
    (r.totalHomeless ≠ 0 → Bed_Gap_Percentage r = Bed_Gap r / r.totalHomeless * 100) ∧
    (r.totalBeds = 0 → Bed_Utilization_Rate r = 0) ∧
    (r.totalBeds ≠ 0 → Bed_Utilization_Rate r = r.shelteredHomeless / r.totalBeds * 100) := by
  refine ⟨rfl, ?_, ?_, ?_, ?_⟩
  · intro h0
    simp [Bed_Gap_Percentage, h0]
  · intro hne
    have : 0 < r.totalHomeless := lt_of_le_of_ne hh (Ne.symm hne)
    simp [Bed_Gap_Percentage, this]
  · intro h0
    simp [Bed_Utilization_Rate, h0]
  · intro hne
    have : 0 < r.totalBeds := lt_of_le_of_ne hb (Ne.symm hne)
    simp [Bed_Utilization_Rate, this]

/-- Witness for C7 at the all-zero record. -/
theorem c7_metric_deriver_total_witness :
    Bed_Gap ⟨0, 0, 0, 0⟩ = (0 : ℚ) - 0 ∧
    ((0 : ℚ) = 0 → Bed_Gap_Percentage ⟨0, 0, 0, 0⟩ = 0) ∧
    ((0 : ℚ) ≠ 0 → Bed_Gap_Percentage ⟨0, 0, 0, 0⟩ = Bed_Gap ⟨0, 0, 0, 0⟩ / 0 * 100) ∧
    ((0 : ℚ) = 0 → Bed_Utilization_Rate ⟨0, 0, 0, 0⟩ = 0) ∧
    ((0 : ℚ) ≠ 0 → Bed_Utilization_Rate ⟨0, 0, 0, 0⟩ = (0 : ℚ) / 0 * 100) :=
  c7_metric_deriver_total ⟨0, 0, 0, 0⟩ (le_refl 0) (le_refl 0)

/-- C1: with ordered thresholds the classifier realizes the ordered rule:
`NO_DATA` iff `total_homeless = 0`, and otherwise the five levels
partition the line at `t1 ≤ t2 ≤ t3 ≤ t4`, a value equal to a threshold
taking the lower-severity label. -/
theorem c1_classify_need_level_cases (t1 t2 t3 t4 g th : ℚ)
    (h12 : t1 ≤ t2) (h23 : t2 ≤ t3) (h34 : t3 ≤ t4) :
    (classify_need_level [t1, t2, t3, t4] g th = NeedLevel.NO_DATA ↔ th = 0) ∧
    (th ≠ 0 →
      ((classify_need_level [t1, t2, t3, t4] g th = NeedLevel.EXCELLENT ↔ g ≤ t1) ∧
       (classify_need_level [t1, t2, t3, t4] g th = NeedLevel.GOOD ↔ t1 < g ∧ g ≤ t2) ∧
       (classify_need_level [t1, t2, t3, t4] g th = NeedLevel.MODERATE ↔ t2 < g ∧ g ≤ t3) ∧
       (classify_need_level [t1, t2, t3, t4] g th = NeedLevel.HIGH ↔ t3 < g ∧ g ≤ t4) ∧
       (classify_need_level [t1, t2, t3, t4] g th = NeedLevel.CRITICAL ↔ t4 < g))) := by
  unfold classify_need_level
  simp only [List.getD_cons_zero, List.getD_cons_succ]
  split_ifs with h0 e1 e2 e3 e4 <;>
    refine ⟨⟨fun hx => ?_, fun hx => ?_⟩,
      fun hth => ⟨⟨fun hx => ?_, fun hx => ?_⟩, ⟨fun hx => ?_, fun hx => ?_⟩,
        ⟨fun hx => ?_, fun hx => ?_⟩, ⟨fun hx => ?_, fun hx => ?_⟩,
        ⟨fun hx => ?_, fun hx => ?_⟩⟩⟩ <;>
    first
      | rfl
      | exact h0
      | exact absurd hx (by decide)
      | exact absurd h0 hth
      | exact absurd hx h0
      | exact e1
      | (refine ⟨?_, ?_⟩ <;> linarith)
      | linarith

/-- Witness for C1: thresholds `1 ≤ 2 ≤ 3 ≤ 4`, gap `2`, homeless `5` is GOOD. -/
theorem c1_classify_need_level_cases_witness :
    classify_need_level [1, 2, 3, 4] 2 5 = NeedLevel.GOOD :=
  ((c1_classify_need_level_cases 1 2 3 4 2 5 (by norm_num) (by norm_num)
    (by norm_num)).2 (by norm_num)).2.1.mpr (by norm_num)

/-- Result of `get_yoy_change` (lines 591-614).  The source returns an
HTML snippet; what matters is which of the three shapes it takes:
an empty string for years up to 2007, the gray `N/A` marker, or a
percent-change figure (the green/red colouring is presentation only). -/
inductive YoYDisplay where
  | blank
  | na
  | change (pct : ℚ)
deriving DecidableEq

/-- Lines 591-614: `get_yoy_change(current_val, indicator, ...)`.
`prev_vals` is the indicator column of the previous-year rows after the
same state/category filters (`prev_data[indicator]`); the source sums it.
If `current_year <= 2007` the function returns the empty string; if there
are no previous-year rows, or their sum is not positive, it returns
`N/A`; otherwise the percent change `(current - prev) / prev * 100`. -/
def get_yoy_change (current_year : ℤ) (current_val : ℚ) (prev_vals : List ℚ) : YoYDisplay :=
  if current_year ≤ 2007 then YoYDisplay.blank
  else if 0 < prev_vals.length then
    if 0 < prev_vals.sum then
      YoYDisplay.change ((current_val - prev_vals.sum) / prev_vals.sum * 100)
    else YoYDisplay.na
  else YoYDisplay.na

/-- Counterexample to C5: with current value 0 and prior-year value 0 the
source returns the `N/A` marker, not the number `0.0` the claim requires
(and likewise there is no capped sentinel anywhere in the function). -/
theorem c5_counterexample_yoy_zero_prior :
    get_yoy_change 2023 0 [0] = YoYDisplay.na ∧
    get_yoy_change 2023 0 [0] ≠ YoYDisplay.change 0 ∧
    get_yoy_change 2023 10 [0] = YoYDisplay.na := by
  refine ⟨?_, ?_, ?_⟩ <;> simp [get_yoy_change]

/-- C5 (amended): for any year after 2007, `(100, 50)` gives `+100%`,
while a prior-year value of 0 gives the `N/A` marker whether the current
value is 0 or positive — never a number and never an error. -/
theorem c5_yoy_change_policy (y : ℤ) (hy : 2007 < y) :
    get_yoy_change y 100 [50] = YoYDisplay.change 100 ∧
    get_yoy_change y 0 [0] = YoYDisplay.na ∧
    get_yoy_change y 10 [0] = YoYDisplay.na := by
  have hy' : ¬y ≤ 2007 := not_le.mpr hy
  refine ⟨?_, ?_, ?_⟩ <;> norm_num [get_yoy_change, hy']

/-- Witness for C5's amended theorem at year 2023. -/
theorem c5_yoy_change_policy_witness :
    get_yoy_change 2023 100 [50] = YoYDisplay.change 100 ∧
    get_yoy_change 2023 0 [0] = YoYDisplay.na ∧
    get_yoy_change 2023 10 [0] = YoYDisplay.na :=
  c5_yoy_change_policy 2023 (by norm_num)

/-- Lines 726-733 of `create_trend_analysis`: if year 2021 appears in the
aggregated trend series and both 2020 and 2022 values are present, the
2021 value is replaced by their arithmetic mean; otherwise the series is
left untouched.  A series entry is a `(year, value)` pair of the
`groupby('Year').sum()` result. -/
def correct2021 (trend : List (ℤ × ℚ)) : List (ℤ × ℚ) :=
  if trend.any (fun p => p.1 == 2021) then
    match trend.find? (fun p => p.1 == 2020), trend.find? (fun p => p.1 == 2022) with
    | some y20, some y22 =>
        trend.map (fun p => if p.1 = 2021 then (p.1, (y20.2 + y22.2) / 2) else p)
    | _, _ => trend
  else trend

/-- Line 766: the trend-plotting loop marks exactly the 2021 data point
as estimated (hollow marker, interpolation hover note). -/
def isInterpolated (year : ℤ) : Bool := year == 2021

/-- Replacing the 2021 entry's value commutes with looking it up. -/
theorem find2021_map (trend : List (ℤ × ℚ)) (v : ℚ)
    (h : trend.any (fun p => p.1 == 2021) = true) :
    (trend.map (fun p => if p.1 = 2021 then (p.1, v) else p)).find?
      (fun p => p.1 == 2021) = some (2021, v) := by
  induction trend with
  | nil => simp at h
  | cons a l ih =>
    by_cases ha : a.1 = 2021
    · simp [List.find?_cons, ha]
    · have h' : l.any (fun p => p.1 == 2021) = true := by
        simp only [List.any_cons, Bool.or_eq_true, beq_iff_eq] at h
        rcases h with h | h
        · exact absurd h ha
        · exact h
      simpa [List.find?_cons, ha] using ih h'

/-- C6: when the trend series has a 2020 value of 1000 and a 2022 value
of 1200 and contains a 2021 entry, the corrected series carries exactly
1100 for 2021, and the 2021 point is flagged as interpolated. -/
theorem c6_interpolated_2021 (trend : List (ℤ × ℚ))
    (h20 : trend.find? (fun p => p.1 == 2020) = some (2020, 1000))
    (h22 : trend.find? (fun p => p.1 == 2022) = some (2022, 1200))
    (h21 : trend.any (fun p => p.1 == 2021) = true) :
    (correct2021 trend).find? (fun p => p.1 == 2021) = some (2021, 1100) ∧
    isInterpolated 2021 = true := by
  constructor
  · unfold correct2021
    rw [h21, if_pos rfl, h20, h22]
    dsimp only
    rw [find2021_map trend ((1000 + 1200 : ℚ) / 2) h21]
    norm_num
  · rfl

/-- Witness for C6 on the concrete series `2020 ↦ 1000, 2021 ↦ 5000, 2022 ↦ 1200`. -/
theorem c6_interpolated_2021_witness :
    (correct2021 [(2020, 1000), (2021, 5000), (2022, 1200)]).find?
      (fun p => p.1 == 2021) = some (2021, 1100) ∧
    isInterpolated 2021 = true :=
  c6_interpolated_2021 [(2020, 1000), (2021, 5000), (2022, 1200)]
    (by rfl) (by rfl) (by rfl)

/-- C10: the 2021 replacement happens only when both neighbour years are
present in the series: if 2020 or 2022 is absent, the series — including
the 2021 entry's raw value — is returned unchanged. -/
theorem c10_no_neighbor_no_interpolation (trend : List (ℤ × ℚ))
    (h : trend.find? (fun p => p.1 == 2020) = none ∨
         trend.find? (fun p => p.1 == 2022) = none) :
    correct2021 trend = trend := by
  unfold correct2021
  by_cases hany : trend.any (fun p => p.1 == 2021)
  · rw [if_pos hany]
    rcases h with h | h
    · rw [h]
    · rw [h]
      cases trend.find? (fun p => p.1 == 2020) <;> rfl
  · rw [if_neg hany]

/-- Witness for C10: a series with 2021 and 2022 but no 2020 is untouched. -/
theorem c10_no_neighbor_no_interpolation_witness :
    correct2021 [(2021, 500), (2022, 600)] = [(2021, 500), (2022, 600)] :=
  c10_no_neighbor_no_interpolation [(2021, 500), (2022, 600)] (Or.inl (by rfl))

/-- C9: the four adaptive cut points are non-decreasing for every
nonempty input, including constant-valued and single-record inputs. -/
theorem c9_thresholds_nondecreasing (records : List RegionRecord)
    (hne : records ≠ []) :
    (gap_percentiles records).getD 0 0 ≤ (gap_percentiles records).getD 1 0 ∧
    (gap_percentiles records).getD 1 0 ≤ (gap_percentiles records).getD 2 0 ∧
    (gap_percentiles records).getD 2 0 ≤ (gap_percentiles records).getD 3 0 := by
  have hvals : records.map Bed_Gap_Percentage ≠ [] := by
    simpa using hne
  refine ⟨?_, ?_, ?_⟩ <;>
    simp only [gap_percentiles, List.getD_cons_zero, List.getD_cons_succ] <;>
    apply quantile_mono _ hvals <;> norm_num

/-- Witness for C9 on a single-record input (all four cut points equal). -/
theorem c9_thresholds_nondecreasing_witness :
    (gap_percentiles [⟨0, 0, 0, 0⟩]).getD 0 0 ≤ (gap_percentiles [⟨0, 0, 0, 0⟩]).getD 1 0 ∧
    (gap_percentiles [⟨0, 0, 0, 0⟩]).getD 1 0 ≤ (gap_percentiles [⟨0, 0, 0, 0⟩]).getD 2 0 ∧
    (gap_percentiles [⟨0, 0, 0, 0⟩]).getD 2 0 ≤ (gap_percentiles [⟨0, 0, 0, 0⟩]).getD 3 0 :=
  c9_thresholds_nondecreasing [⟨0, 0, 0, 0⟩] (by simp)

/-- The cut points as the spec words them: 20/40/60/80th percentiles of
`bed_gap_pct` over only the records with `total_homeless > 0`.  Stated
only for comparison against `gap_percentiles`, which is what line 1223
actually computes. -/
def spec_gap_percentiles (records : List RegionRecord) : List ℚ :=
  [quantile ((records.filter (fun r => decide (0 < r.totalHomeless))).map Bed_Gap_Percentage) 0.2,
   quantile ((records.filter (fun r => decide (0 < r.totalHomeless))).map Bed_Gap_Percentage) 0.4,
   quantile ((records.filter (fun r => decide (0 < r.totalHomeless))).map Bed_Gap_Percentage) 0.6,
   quantile ((records.filter (fun r => decide (0 < r.totalHomeless))).map Bed_Gap_Percentage) 0.8]

/-- Three regions for one year: one with no homeless population and two
with gap percentages 10% and 20%. -/
def c2records : List RegionRecord :=
  [⟨0, 0, 0, 0⟩, ⟨90, 100, 0, 0⟩, ⟨80, 100, 0, 0⟩]

/-- Counterexample to C2: the source computes the quantiles over the
whole `Bed_Gap_Percentage` column, so the zero-homeless record
contributes a 0 value; on `c2records` the first cut point is 4, whereas
the spec's rule (quantiles over positive-homeless records only) gives 12. -/
theorem c2_counterexample_zero_homeless_contributes :
    gap_percentiles c2records ≠ spec_gap_percentiles c2records ∧
    (gap_percentiles c2records).getD 0 0 = 4 ∧
    (spec_gap_percentiles c2records).getD 0 0 = 12 := by
  have hmap : c2records.map Bed_Gap_Percentage = [0, 10, 20] := by
    norm_num [c2records, Bed_Gap_Percentage, Bed_Gap]
  have hfilter : c2records.filter (fun r => decide (0 < r.totalHomeless)) =
      [⟨90, 100, 0, 0⟩, ⟨80, 100, 0, 0⟩] := by
    norm_num [c2records, List.filter]
  have hmapf : (c2records.filter (fun r => decide (0 < r.totalHomeless))).map
      Bed_Gap_Percentage = [10, 20] := by
    rw [hfilter]
    norm_num [Bed_Gap_Percentage, Bed_Gap]
  have hf1 : ⌊(2 : ℚ) / 5⌋₊ = 0 := by norm_num
  have hf2 : ⌊(1 : ℚ) / 5⌋₊ = 0 := by norm_num
  have hcode : (gap_percentiles c2records).getD 0 0 = 4 := by
    simp only [gap_percentiles, hmap, List.getD_cons_zero]
    norm_num [quantile, interpSorted, List.insertionSort, List.orderedInsert, hf1]
  have hspec : (spec_gap_percentiles c2records).getD 0 0 = 12 := by
    simp only [spec_gap_percentiles, hmapf, List.getD_cons_zero]
    norm_num [quantile, interpSorted, List.insertionSort, List.orderedInsert, hf2]
  refine ⟨?_, hcode, hspec⟩
  intro hcontra
  rw [hcontra, hspec] at hcode
  norm_num at hcode

/-- C2 (amended): the cut points are the 20/40/60/80th percentiles of the
`bed_gap_pct` values of all records of the year, where every record with
`total_homeless ≤ 0` contributes the value 0 (its `Bed_Gap_Percentage`). -/
theorem c2_percentiles_over_all_records (records : List RegionRecord) :
    gap_percentiles records =
      [quantile (((records.filter (fun r => decide (0 < r.totalHomeless))).map Bed_Gap_Percentage) ++
         (records.filter (fun r => !decide (0 < r.totalHomeless))).map (fun _ => (0 : ℚ))) 0.2,
       quantile (((records.filter (fun r => decide (0 < r.totalHomeless))).map Bed_Gap_Percentage) ++
         (records.filter (fun r => !decide (0 < r.totalHomeless))).map (fun _ => (0 : ℚ))) 0.4,
       quantile (((records.filter (fun r => decide (0 < r.totalHomeless))).map Bed_Gap_Percentage) ++
         (records.filter (fun r => !decide (0 < r.totalHomeless))).map (fun _ => (0 : ℚ))) 0.6,
       quantile (((records.filter (fun r => decide (0 < r.totalHomeless))).map Bed_Gap_Percentage) ++
         (records.filter (fun r => !decide (0 < r.totalHomeless))).map (fun _ => (0 : ℚ))) 0.8] := by
  have hzero : (records.filter (fun r => !decide (0 < r.totalHomeless))).map Bed_Gap_Percentage =
      (records.filter (fun r => !decide (0 < r.totalHomeless))).map (fun _ => (0 : ℚ)) := by
    apply List.map_congr_left
    intro r hr
    have hcond := (List.mem_filter.mp hr).2
    simp only [Bool.not_eq_true', decide_eq_false_iff_not] at hcond
    simp [Bed_Gap_Percentage, hcond]
  have hperm : (((records.filter (fun r => decide (0 < r.totalHomeless))).map Bed_Gap_Percentage) ++
      (records.filter (fun r => !decide (0 < r.totalHomeless))).map (fun _ => (0 : ℚ))).Perm
      (records.map Bed_Gap_Percentage) := by
    rw [← hzero, ← List.map_append]
    exact (List.filter_append_perm _ records).map Bed_Gap_Percentage
  simp only [gap_percentiles]
  rw [quantile_congr_perm hperm.symm 0.2, quantile_congr_perm hperm.symm 0.4,
      quantile_congr_perm hperm.symm 0.6, quantile_congr_perm hperm.symm 0.8]

/-- Line 1188: `beds_percentiles = correlation_data['Total_Beds'].quantile([0.25, 0.5, 0.75]).tolist()`. -/
def beds_percentiles (records : List RegionRecord) : List ℚ :=
  [quantile (records.map RegionRecord.totalBeds) 0.25,
   quantile (records.map RegionRecord.totalBeds) 0.5,
   quantile (records.map RegionRecord.totalBeds) 0.75]

/-- Line 1189: the same quartiles of the `Total_Homeless` column. -/
def homeless_percentiles (records : List RegionRecord) : List ℚ :=
  [quantile (records.map RegionRecord.totalHomeless) 0.25,
   quantile (records.map RegionRecord.totalHomeless) 0.5,
   quantile (records.map RegionRecord.totalHomeless) 0.75]

/-- Lines 1191-1199: `classify_beds_capacity(beds)` — classes the
current-year absolute bed total against the year's 25th/75th
percentiles (the 50th is computed but unused). -/
def classify_beds_capacity (bedsPercentiles : List ℚ) (beds : ℚ) : String :=
  if beds = 0 then "B0"
  else if beds ≤ bedsPercentiles.getD 0 0 then "B1"
  else if beds ≤ bedsPercentiles.getD 2 0 then "B2"
  else "B3"

/-- Lines 1201-1209: `classify_homeless_population(homeless)`. -/
def classify_homeless_population (homelessPercentiles : List ℚ) (homeless : ℚ) : String :=
  if homeless = 0 then "H0"
  else if homeless ≤ homelessPercentiles.getD 0 0 then "H1"
  else if homeless ≤ homelessPercentiles.getD 2 0 then "H2"
  else "H3"

/-- Line 1213: `Correlation_Class = Beds_Class + '-' + Homeless_Class`. -/
def Correlation_Class (bedsPercentiles homelessPercentiles : List ℚ)
    (beds homeless : ℚ) : String :=
  classify_beds_capacity bedsPercentiles beds ++ "-" ++
    classify_homeless_population homelessPercentiles homeless

/-- Three regions whose bed totals are 0, 90, 80 and homeless totals are
0, 100, 100. -/
def c8records : List RegionRecord :=
  [⟨0, 0, 0, 0⟩, ⟨90, 100, 0, 0⟩, ⟨80, 100, 0, 0⟩]

/-- Counterexample to C8: the classifier combined at line 1213 takes
absolute current-year totals, not year-over-year percent changes, and its
labels are `B0..B3`/`H0..H3`; feeding the claim's example pair `(-10, +5)`
into it yields `B1-H1`, not `decrease-increase`. -/
theorem c8_counterexample_not_change_based :
    Correlation_Class (beds_percentiles c8records) (homeless_percentiles c8records)
      (-10) 5 = "B1-H1" ∧
    ("B1-H1" : String) ≠ "decrease-increase" := by
  have hbeds : c8records.map RegionRecord.totalBeds = [0, 90, 80] := by
    norm_num [c8records]
  have hhomeless : c8records.map RegionRecord.totalHomeless = [0, 100, 100] := by
    norm_num [c8records]
  have hf1 : ⌊(1 : ℚ) / 2⌋₊ = 0 := by norm_num
  have hf3 : ⌊(3 : ℚ) / 2⌋₊ = 1 := by
    rw [Nat.floor_eq_iff (by norm_num)]
    norm_num
  have hb : beds_percentiles c8records = [40, 80, 85] := by
    simp only [beds_percentiles, hbeds]
    norm_num [quantile, interpSorted, List.insertionSort, List.orderedInsert, hf1, hf3]
  have hh : homeless_percentiles c8records = [50, 100, 100] := by
    simp only [homeless_percentiles, hhomeless]
    norm_num [quantile, interpSorted, List.insertionSort, List.orderedInsert, hf1, hf3]
  have hbc : classify_beds_capacity [40, 80, 85] (-10) = "B1" := by
    norm_num [classify_beds_capacity]
  have hhc : classify_homeless_population [50, 100, 100] 5 = "H1" := by
    norm_num [classify_homeless_population]
  refine ⟨?_, by decide⟩
  rw [Correlation_Class, hb, hh, hbc, hhc]
  rfl

/-- C8 (amended): for every record the composite label is
`{BedsClass}-{HomelessClass}` computed from the current-year absolute
totals against the year's quartiles: `B0`/`H0` for a zero total, `B1`/`H1`
up to the 25th percentile, `B2`/`H2` up to the 75th, `B3`/`H3` above it,
a value equal to a percentile taking the lower class. -/
theorem c8_bivariate_absolute_classes (p1 p2 p3 q1 q2 q3 beds homeless : ℚ)
    (hp : p1 ≤ p3) (hq : q1 ≤ q3) :
    Correlation_Class [p1, p2, p3] [q1, q2, q3] beds homeless =
      classify_beds_capacity [p1, p2, p3] beds ++ "-" ++
        classify_homeless_population [q1, q2, q3] homeless ∧
    (beds = 0 → classify_beds_capacity [p1, p2, p3] beds = "B0") ∧
    (beds ≠ 0 → beds ≤ p1 → classify_beds_capacity [p1, p2, p3] beds = "B1") ∧
    (beds ≠ 0 → p1 < beds → beds ≤ p3 → classify_beds_capacity [p1, p2, p3] beds = "B2") ∧
    (beds ≠ 0 → p3 < beds → classify_beds_capacity [p1, p2, p3] beds = "B3") ∧
    (homeless = 0 → classify_homeless_population [q1, q2, q3] homeless = "H0") ∧
    (homeless ≠ 0 → homeless ≤ q1 → classify_homeless_population [q1, q2, q3] homeless = "H1") ∧
    (homeless ≠ 0 → q1 < homeless → homeless ≤ q3 →
      classify_homeless_population [q1, q2, q3] homeless = "H2") ∧
    (homeless ≠ 0 → q3 < homeless → classify_homeless_population [q1, q2, q3] homeless = "H3") := by
  refine ⟨rfl, ?_, ?_, ?_, ?_, ?_, ?_, ?_, ?_⟩
  · intro h0
    simp [classify_beds_capacity, h0]
  · intro hne hle
    simp [classify_beds_capacity, hne, hle]
  · intro hne hgt hle
    simp [classify_beds_capacity, hne, not_le.mpr hgt, hle]
  · intro hne hgt
    simp [classify_beds_capacity, hne, not_le.mpr (lt_of_le_of_lt hp hgt), not_le.mpr hgt]
  · intro h0
    simp [classify_homeless_population, h0]
  · intro hne hle
    simp [classify_homeless_population, hne, hle]
  · intro hne hgt hle
    simp [classify_homeless_population, hne, not_le.mpr hgt, hle]
  · intro hne hgt
    simp [classify_homeless_population, hne, not_le.mpr (lt_of_le_of_lt hq hgt), not_le.mpr hgt]

/-- Witness for C8's amended theorem at quartiles `(40, 80, 85)` and
`(50, 100, 100)` with inputs `-10` and `5`. -/
theorem c8_bivariate_absolute_classes_witness :
    classify_beds_capacity [40, 80, 85] (-10) = "B1" ∧
    classify_homeless_population [50, 100, 100] 5 = "H1" :=
  ⟨(c8_bivariate_absolute_classes 40 80 85 50 100 100 (-10) 5 (by norm_num)
      (by norm_num)).2.2.1 (by norm_num) (by norm_num),
   (c8_bivariate_absolute_classes 40 80 85 50 100 100 (-10) 5 (by norm_num)
      (by norm_num)).2.2.2.2.2.2.1 (by norm_num) (by norm_num)⟩

/-- Lines 1340-1345: `need_level_scores` maps each need level to a
severity score 0-5 (`Color_Need_Score`). -/
def need_level_scores (l : NeedLevel) : ℚ :=
  match l with
  | NeedLevel.NO_DATA => 0
  | NeedLevel.EXCELLENT => 1
  | NeedLevel.GOOD => 2
  | NeedLevel.MODERATE => 3
  | NeedLevel.HIGH => 4
  | NeedLevel.CRITICAL => 5

/-- The severity scores of the regions that k-means put in cluster `i`
(line 1365: `cluster_data = correlation_data[correlation_data['Cluster'] == i]`).
`scores` is the `Color_Need_Score` column and `labels` the `Cluster`
column, in region order. -/
def clusterScores (scores : List ℚ) (labels : List (Fin 3)) (i : Fin 3) : List ℚ :=
  ((scores.zip labels).filter (fun p => p.2 == i)).map Prod.fst

/-- Line 1367: `avg_need_score = cluster_data['Color_Need_Score'].mean()`. -/
def clusterMean (scores : List ℚ) (labels : List (Fin 3)) (i : Fin 3) : ℚ :=
  (clusterScores scores labels i).sum / ((clusterScores scores labels i).length : ℚ)

/-- One tuple `(i, avg_need_score, len(cluster_data))` appended at line 1368. -/
structure ClusterStat where
  cid : Fin 3
  meanScore : ℚ
  size : ℕ
deriving DecidableEq

/-- Lines 1363-1368: the `cluster_stats` list — one entry per nonempty
cluster id in `0, 1, 2` order. -/
def clusterStats (scores : List ℚ) (labels : List (Fin 3)) : List ClusterStat :=
  (([0, 1, 2] : List (Fin 3)).filter
      (fun i => decide (0 < (clusterScores scores labels i).length))).map
    (fun i => ⟨i, clusterMean scores labels i, (clusterScores scores labels i).length⟩)

/-- The comparison used at line 1370: sort key `x[1]` (the mean score),
descending. -/
def statGE (a b : ClusterStat) : Prop := b.meanScore ≤ a.meanScore

instance : DecidableRel statGE :=
  fun a b => inferInstanceAs (Decidable (b.meanScore ≤ a.meanScore))

instance : IsTotal ClusterStat statGE :=
  ⟨fun a b => le_total b.meanScore a.meanScore⟩

instance : IsTrans ClusterStat statGE :=
  ⟨fun _ _ _ hab hbc => le_trans hbc hab⟩

/-- Line 1370: `cluster_stats.sort(key=lambda x: x[1], reverse=True)` —
Python's sort is stable, which insertion sort with a total preorder
reproduces exactly. -/
def sortedClusterStats (scores : List ℚ) (labels : List (Fin 3)) : List ClusterStat :=
  List.insertionSort statGE (clusterStats scores labels)

/-- Line 1371: `cluster_mapping = {original_id: rank for rank, (original_id, _, _) in enumerate(cluster_stats)}` —
the rank of a cluster id is its position in the sorted stats. -/
def clusterRank (scores : List ℚ) (labels : List (Fin 3)) (i : Fin 3) : ℕ :=
  ((sortedClusterStats scores labels).map ClusterStat.cid).indexOf i

/-- Lines 1354-1376: the clustering branch runs only when there are at
least 3 feature rows (`if len(cluster_features) >= 3`), in which case
every region's k-means label is mapped to its cluster's rank; otherwise
`cluster_success = False` and no clustering result exists.  The k-means
labelling itself (sklearn `KMeans(n_clusters=3, random_state=42)`) is an
external library call and enters as the `labels` argument. -/
def validateClusters (scores : List ℚ) (labels : List (Fin 3)) : Option (List ℕ) :=
  if 3 ≤ scores.length then some (labels.map (clusterRank scores labels)) else none

/-- C3: with fewer than 3 feature rows the validator reports no result;
with at least 3 rows and every cluster nonempty it assigns each region
one of the ranks 0, 1, 2, all three ranks occur, and a cluster relabelled
0 has the greatest mean severity score of the three. -/
theorem c3_cluster_validator (scores : List ℚ) (labels : List (Fin 3))
    (hlen : labels.length = scores.length) :
    (scores.length < 3 → validateClusters scores labels = none) ∧
    (3 ≤ scores.length → (∀ i : Fin 3, clusterScores scores labels i ≠ []) →
      validateClusters scores labels = some (labels.map (clusterRank scores labels)) ∧
      (labels.map (clusterRank scores labels)).length = scores.length ∧
      (∀ x ∈ labels.map (clusterRank scores labels), x < 3) ∧
      (∀ r : ℕ, r < 3 → r ∈ labels.map (clusterRank scores labels)) ∧
      (∀ i : Fin 3, clusterRank scores labels i = 0 →
        ∀ j : Fin 3, clusterMean scores labels j ≤ clusterMean scores labels i)) := by
  constructor
  · intro hlt
    simp [validateClusters, not_le.mpr hlt]
  · intro h3 hne
    have hfil : (([0, 1, 2] : List (Fin 3)).filter
        (fun i => decide (0 < (clusterScores scores labels i).length))) = [0, 1, 2] := by
      apply List.filter_eq_self.mpr
      intro i _
      simpa using List.length_pos.mpr (hne i)
    have hstats : clusterStats scores labels =
        [⟨0, clusterMean scores labels 0, (clusterScores scores labels 0).length⟩,
         ⟨1, clusterMean scores labels 1, (clusterScores scores labels 1).length⟩,
         ⟨2, clusterMean scores labels 2, (clusterScores scores labels 2).length⟩] := by
      rw [clusterStats, hfil]
      rfl
    have hperm : (sortedClusterStats scores labels).Perm (clusterStats scores labels) :=
      List.perm_insertionSort _ _
    have hsorted : List.Sorted statGE (sortedClusterStats scores labels) :=
      List.sorted_insertionSort _ _
    have hmem_mean : ∀ st ∈ sortedClusterStats scores labels,
        st.meanScore = clusterMean scores labels st.cid := by
      intro st hst
      have hmem : st ∈ clusterStats scores labels := hperm.mem_iff.mp hst
      rw [hstats] at hmem
      simp only [List.mem_cons, List.not_mem_nil, or_false] at hmem
      rcases hmem with rfl | rfl | rfl <;> rfl
    have hidperm : ((sortedClusterStats scores labels).map ClusterStat.cid).Perm
        ([0, 1, 2] : List (Fin 3)) := by
      have hmapped := hperm.map ClusterStat.cid
      rw [hstats] at hmapped
      simpa using hmapped
    have hlen3 : ((sortedClusterStats scores labels).map ClusterStat.cid).length = 3 := by
      rw [hidperm.length_eq]
      rfl
    have hmemid : ∀ i : Fin 3, i ∈ (sortedClusterStats scores labels).map ClusterStat.cid := by
      intro i
      rw [hidperm.mem_iff]
      have : ∀ k : Fin 3, k ∈ ([0, 1, 2] : List (Fin 3)) := by decide
      exact this i
    have hnodup : ((sortedClusterStats scores labels).map ClusterStat.cid).Nodup :=
      hidperm.nodup_iff.mpr (by decide)
    have hrank_lt : ∀ i : Fin 3, clusterRank scores labels i < 3 := by
      intro i
      have := List.indexOf_lt_length.mpr (hmemid i)
      rwa [hlen3] at this
    refine ⟨?_, ?_, ?_, ?_, ?_⟩
    · simp [validateClusters, h3]
    · rw [List.length_map, hlen]
    · intro x hx
      rcases List.mem_map.mp hx with ⟨l, _, rfl⟩
      exact hrank_lt l
    · intro r hr
      have hrlen : r < ((sortedClusterStats scores labels).map ClusterStat.cid).length := by
        omega
      have hrank_i : clusterRank scores labels
          (((sortedClusterStats scores labels).map ClusterStat.cid).get ⟨r, hrlen⟩) = r := by
        unfold clusterRank
        exact List.get_indexOf hnodup _
      have hi_labels :
          ((sortedClusterStats scores labels).map ClusterStat.cid).get ⟨r, hrlen⟩ ∈ labels := by
        have hnil := hne (((sortedClusterStats scores labels).map ClusterStat.cid).get ⟨r, hrlen⟩)
        unfold clusterScores at hnil
        rw [Ne, List.map_eq_nil_iff] at hnil
        rcases List.exists_mem_of_ne_nil _ hnil with ⟨p, hp⟩
        have hcond := (List.mem_filter.mp hp).2
        have hzip := (List.mem_filter.mp hp).1
        have hp2 : p.2 = ((sortedClusterStats scores labels).map ClusterStat.cid).get ⟨r, hrlen⟩ :=
          by simpa using hcond
        have := (List.of_mem_zip (show (p.1, p.2) ∈ scores.zip labels by simpa using hzip)).2
        rwa [hp2] at this
      have := List.mem_map_of_mem (clusterRank scores labels) hi_labels
      rwa [hrank_i] at this
    · intro i hi0 j
      obtain ⟨st0, S', hS⟩ : ∃ st0 S', sortedClusterStats scores labels = st0 :: S' := by
        cases hcase : sortedClusterStats scores labels with
        | nil =>
          rw [hcase] at hlen3
          simp at hlen3
        | cons a l => exact ⟨a, l, rfl⟩
      have hcid : st0.cid = i := by
        unfold clusterRank at hi0
        rw [hS, List.map_cons, List.indexOf_cons] at hi0
        by_cases hbeq : (st0.cid == i) = true
        · exact beq_iff_eq.mp hbeq
        · rw [Bool.not_eq_true] at hbeq
          rw [hbeq] at hi0
          simp at hi0
      obtain ⟨stj, hstj_mem, hstj_cid⟩ :
          ∃ st ∈ sortedClusterStats scores labels, st.cid = j := by
        have hall : ∀ k : Fin 3,
            (⟨k, clusterMean scores labels k, (clusterScores scores labels k).length⟩ :
              ClusterStat) ∈ clusterStats scores labels := by
          intro k
          rw [hstats]
          fin_cases k <;> simp
        exact ⟨⟨j, clusterMean scores labels j, (clusterScores scores labels j).length⟩,
          hperm.mem_iff.mpr (hall j), rfl⟩
      have hge : statGE st0 stj := by
        have hmem' : stj ∈ st0 :: S' := by rw [← hS]; exact hstj_mem
        rcases List.mem_cons.mp hmem' with rfl | hmem''
        · exact le_refl _
        · rw [hS, List.sorted_cons] at hsorted
          exact hsorted.1 stj hmem''
      have h0mean : st0.meanScore = clusterMean scores labels i := by
        rw [hmem_mean st0 (by rw [hS]; exact List.mem_cons_self _ _), hcid]
      have hjmean : stj.meanScore = clusterMean scores labels j := by
        rw [hmem_mean stj hstj_mem, hstj_cid]
      rw [← h0mean, ← hjmean]
      exact hge

/-- Witness for C3 on severity scores `5, 3, 1` with k-means labels
`0, 1, 2` (each cluster a singleton). -/
theorem c3_cluster_validator_witness :
    validateClusters [5, 3, 1] [0, 1, 2] =
      some (([0, 1, 2] : List (Fin 3)).map (clusterRank [5, 3, 1] [0, 1, 2])) ∧
    (([0, 1, 2] : List (Fin 3)).map (clusterRank [5, 3, 1] [0, 1, 2])).length =
      ([5, 3, 1] : List ℚ).length ∧
    (∀ x ∈ ([0, 1, 2] : List (Fin 3)).map (clusterRank [5, 3, 1] [0, 1, 2]), x < 3) ∧
    (∀ r : ℕ, r < 3 → r ∈ ([0, 1, 2] : List (Fin 3)).map (clusterRank [5, 3, 1] [0, 1, 2])) ∧
    (∀ i : Fin 3, clusterRank [5, 3, 1] [0, 1, 2] i = 0 →
      ∀ j : Fin 3, clusterMean [5, 3, 1] [0, 1, 2] j ≤ clusterMean [5, 3, 1] [0, 1, 2] i) :=
  (c3_cluster_validator [5, 3, 1] [0, 1, 2] rfl).2 (by norm_num) (by decide)

/-- A pandas cell of the `Need_Level` column: a string need label (what
`classify_need_level` wrote at line 1239) or the integer cluster rank
that line 1372 writes over it — the column is dynamically typed. -/
inductive NeedCell where
  | str (s : String)
  | int (n : ℕ)
deriving DecidableEq

/-- Lines 1354-1376 as they act on the `Need_Level` column: inside the
`len(cluster_features) >= 3` branch the source executes
`correlation_data['Need_Level'] = correlation_data['Cluster'].map(cluster_mapping)`
(line 1372), replacing the classifier's labels with integer ranks; in the
short-input branch the column is untouched. -/
def need_level_after_clustering (scores : List ℚ) (labels : List (Fin 3))
    (needCol : List NeedCell) : List NeedCell :=
  if 3 ≤ scores.length then
    labels.map (fun l => NeedCell.int (clusterRank scores labels l))
  else needCol

/-- C4 evidence: on three regions classified CRITICAL, MODERATE,
EXCELLENT (severity scores 5, 3, 1) with k-means labels 0, 1, 2, the
cluster-validation code rewrites the `Need_Level` column to the integer
ranks `0, 1, 2`, so need classification is not left unchanged.  (Later
display code — lines 1438-1442, 1592-1614, 1683-1694 — still reads string
labels from the column, and line 1630 guards on a `Cluster_Mapped` column
that is never created, so the overwrite contradicts the code's own
downstream expectations.) -/
theorem c4_clustering_overwrites_need_level :
    need_level_after_clustering
        [need_level_scores NeedLevel.CRITICAL, need_level_scores NeedLevel.MODERATE,
         need_level_scores NeedLevel.EXCELLENT]
        [0, 1, 2]
        [NeedCell.str "CRITICAL", NeedCell.str "MODERATE", NeedCell.str "EXCELLENT"] =
      [NeedCell.int 0, NeedCell.int 1, NeedCell.int 2] ∧
    [NeedCell.int 0, NeedCell.int 1, NeedCell.int 2] ≠
      [NeedCell.str "CRITICAL", NeedCell.str "MODERATE", NeedCell.str "EXCELLENT"] := by
  refine ⟨?_, by decide⟩
  have hscores : [need_level_scores NeedLevel.CRITICAL, need_level_scores NeedLevel.MODERATE,
      need_level_scores NeedLevel.EXCELLENT] = [(5 : ℚ), 3, 1] := rfl
  rw [hscores]
  have h0 : clusterScores [5, 3, 1] [0, 1, 2] 0 = [5] := by decide
  have h1 : clusterScores [5, 3, 1] [0, 1, 2] 1 = [3] := by decide
  have h2 : clusterScores [5, 3, 1] [0, 1, 2] 2 = [1] := by decide
  have hm0 : clusterMean [5, 3, 1] [0, 1, 2] 0 = 5 := by
    rw [clusterMean, h0]
    norm_num
  have hm1 : clusterMean [5, 3, 1] [0, 1, 2] 1 = 3 := by
    rw [clusterMean, h1]
    norm_num
  have hm2 : clusterMean [5, 3, 1] [0, 1, 2] 2 = 1 := by
    rw [clusterMean, h2]
    norm_num
  have hstats : clusterStats [5, 3, 1] [0, 1, 2] = [⟨0, 5, 1⟩, ⟨1, 3, 1⟩, ⟨2, 1, 1⟩] := by
    simp [clusterStats, h0, h1, h2, hm0, hm1, hm2]
  have hsortedv : sortedClusterStats [5, 3, 1] [0, 1, 2] = [⟨0, 5, 1⟩, ⟨1, 3, 1⟩, ⟨2, 1, 1⟩] := by
    rw [sortedClusterStats, hstats]
    norm_num [List.insertionSort, List.orderedInsert, statGE]
  have hr0 : clusterRank [5, 3, 1] [0, 1, 2] 0 = 0 := by
    rw [clusterRank, hsortedv]
    decide
  have hr1 : clusterRank [5, 3, 1] [0, 1, 2] 1 = 1 := by
    rw [clusterRank, hsortedv]
    decide
  have hr2 : clusterRank [5, 3, 1] [0, 1, 2] 2 = 2 := by
    rw [clusterRank, hsortedv]
    decide
  rw [need_level_after_clustering, if_pos (by norm_num)]
  simp [hr0, hr1, hr2]

end CoC
